import Mathlib

/-!
Verification of a URL-shortening service (Flask app `app.py` + auth service
`auth.py`) against its natural-language specification.

The Python source is shallowly embedded:
* the in-memory dict `url_data` becomes an insertion-ordered association list
  (Python dicts preserve insertion order, which the duplicate-target scan in
  `create_short_url` observes through `next(...)`);
* the regular expression in `is_valid_url` is translated constructor by
  constructor into an executable backtracking matcher (`splitsAny` enumerates
  the split points an NFA search would explore);
* `random.choices` becomes an explicit stream `rng : Nat → Nat` of draws,
  reduced mod 62 to index the alphabet, so that every draw is an element of
  `string.ascii_letters + string.digits` exactly as in the source;
* the PyJWT calls are modelled symbolically: an HMAC signature is the pair
  (secret, payload), so two signatures agree iff secret and payload agree
  (ideal-MAC model), and `jwt.decode` checks the signature and that the
  expiry lies strictly in the future (PyJWT rejects `exp <= now`).
-/

namespace UrlShortener

/-! ## Character classes (ASCII, as used by the regex under `re.IGNORECASE`) -/

/-- `[A-Z]` under `re.IGNORECASE`: an ASCII letter of either case. -/
def isAZ (c : Char) : Bool :=
  ('A' ≤ c && c ≤ 'Z') || ('a' ≤ c && c ≤ 'z')

/-- `\d` on ASCII input: a decimal digit. -/
def isDigitC (c : Char) : Bool :=
  '0' ≤ c && c ≤ '9'

/-- `[A-Z0-9]` under `re.IGNORECASE`. -/
def isAlnumC (c : Char) : Bool :=
  isAZ c || isDigitC c

/-- `[A-Z0-9-]` under `re.IGNORECASE`. -/
def isLabelMid (c : Char) : Bool :=
  isAlnumC c || c == '-'

/-- Python's `\s` on ASCII: space, tab, newline, carriage return,
vertical tab, form feed. -/
def isSpaceC (c : Char) : Bool :=
  c == ' ' || c == '\t' || c == '\n' || c == '\r' ||
    c == Char.ofNat 11 || c == Char.ofNat 12

/-- `\S`: any non-whitespace character. -/
def isNonSpace (c : Char) : Bool :=
  !isSpaceC c

/-- Case folding of a character list, for the case-insensitive literals
`https?://` and `localhost`. -/
def lowerL (l : List Char) : List Char :=
  l.map Char.toLower

/-! ## Leaf pieces of the regex in `is_valid_url` (`app.py` lines 101–107)

The regex is
`^https?://(?:(?:[A-Z0-9](?:[A-Z0-9-]{0,61}[A-Z0-9])?\.)+[A-Z]{2,6}\.?|localhost|\d{1,3}\.\d{1,3}\.\d{1,3}\.\d{1,3})(?::\d+)?(?:/?|[/?]\S+)$`
compiled with `re.IGNORECASE` and used via `re.match` (anchored at the start
only; the final `$` accepts the end of the string or the position just
before a terminal newline). -/

/-- `https?://`, case-insensitively. -/
def matchSchemeTok (x : List Char) : Bool :=
  lowerL x == "http://".data || lowerL x == "https://".data

/-- One hostname label: `[A-Z0-9](?:[A-Z0-9-]{0,61}[A-Z0-9])?`.
After the leading alphanumeric character the optional group contributes
between 1 and 62 further characters: up to 61 of `[A-Z0-9-]` and then a
final `[A-Z0-9]`. -/
def matchLabel (x : List Char) : Bool :=
  match x with
  | [] => false
  | c :: rest =>
      isAlnumC c &&
        (rest.isEmpty ||
          (rest.length ≤ 62 && rest.dropLast.all isLabelMid &&
            isAlnumC (rest.getLastD '-')))

/-- A label followed by a literal dot: `[A-Z0-9](?:[A-Z0-9-]{0,61}[A-Z0-9])?\.` -/
def matchLabelDot (x : List Char) : Bool :=
  !x.isEmpty && x.getLastD ' ' == '.' && matchLabel x.dropLast

/-- The top-level label `[A-Z]{2,6}`: two to six letters. -/
def matchTld (x : List Char) : Bool :=
  2 ≤ x.length && x.length ≤ 6 && x.all isAZ

/-- `[A-Z]{2,6}\.?`: the top-level label, optionally followed by a
trailing dot. -/
def matchTldSeg (x : List Char) : Bool :=
  matchTld x || (x.getLastD ' ' == '.' && matchTld x.dropLast)

/-- One IPv4 octet `\d{1,3}`. -/
def matchOct (x : List Char) : Bool :=
  1 ≤ x.length && x.length ≤ 3 && x.all isDigitC

/-- An octet followed by a literal dot: `\d{1,3}\.` -/
def matchOctDot (x : List Char) : Bool :=
  !x.isEmpty && x.getLastD ' ' == '.' && matchOct x.dropLast

/-- The optional port `(?::\d+)?`: empty, or `:` followed by at least one
digit. -/
def matchPortOpt (x : List Char) : Bool :=
  x.isEmpty ||
    (x.headD ' ' == ':' && !x.tail.isEmpty && x.tail.all isDigitC)

/-- The path alternative `(?:/?|[/?]\S+)`: empty, a single `/`, or `/` or
`?` followed by at least one non-whitespace character. -/
def matchPathBody (x : List Char) : Bool :=
  x.isEmpty || x == ['/'] ||
    ((x.headD ' ' == '/' || x.headD ' ' == '?') &&
      !x.tail.isEmpty && x.tail.all isNonSpace)

/-- What the final `$` leaves unconsumed: nothing, or a single terminal
newline (Python's `$` matches just before a newline that ends the string). -/
def matchEndTok (x : List Char) : Bool :=
  x.isEmpty || x == ['\n']

/-! ## Backtracking composition -/

/-- `splitsAny p q l` holds iff `l` splits as `a ++ b` with `p a` and `q b`:
the concatenation of two regex pieces, searched over every split point. -/
def splitsAny (p q : List Char → Bool) (l : List Char) : Bool :=
  (List.range (l.length + 1)).any fun i => p (l.take i) && q (l.drop i)

/-- `(?:LABEL\.)+` consuming the whole input, with explicit fuel (each block
consumes at least two characters, so `l.length + 1` units of fuel suffice). -/
def matchLabelsPlusF : Nat → List Char → Bool
  | 0, _ => false
  | fuel + 1, l =>
      (List.range (l.length + 1)).any fun i =>
        matchLabelDot (l.take i) &&
          ((l.drop i).isEmpty || matchLabelsPlusF fuel (l.drop i))

/-- `(?:[A-Z0-9](?:[A-Z0-9-]{0,61}[A-Z0-9])?\.)+` consuming the whole input. -/
def matchLabelsPlus (l : List Char) : Bool :=
  matchLabelsPlusF (l.length + 1) l

/-- The domain alternative `(?:LABEL\.)+[A-Z]{2,6}\.?`. -/
def matchDomain (l : List Char) : Bool :=
  splitsAny matchLabelsPlus matchTldSeg l

/-- The IP alternative `\d{1,3}\.\d{1,3}\.\d{1,3}\.\d{1,3}`. -/
def matchIPv4 (l : List Char) : Bool :=
  splitsAny matchOctDot (splitsAny matchOctDot (splitsAny matchOctDot matchOct)) l

/-- The host group: domain, or the literal `localhost` (case-insensitive),
or a dotted-quad IP. -/
def matchHost (l : List Char) : Bool :=
  matchDomain l || lowerL l == "localhost".data || matchIPv4 l

/-- Everything after the host: optional port, then the path alternative,
then the position where `$` holds. -/
def matchTail (l : List Char) : Bool :=
  splitsAny matchPortOpt (splitsAny matchPathBody matchEndTok) l

/-- `re.match` of the whole compiled regex against `l`. -/
def urlRegexMatch (l : List Char) : Bool :=
  splitsAny matchSchemeTok (splitsAny matchHost matchTail) l

/-- `URLShortenerApp.is_valid_url` (`app.py` lines 87–110): reject strings
longer than 1000 characters, reject any occurrence of `<` or `>`, otherwise
match the URL regex. -/
def is_valid_url (s : String) : Bool :=
  if s.length > 1000 then false
  else if s.data.any (fun c => c == '<' || c == '>') then false
  else urlRegexMatch s.data

/-! ## The link store

`url_data` is a Python dict mapping an id to `{"url": ..., "created_at": ...}`.
Python dicts preserve insertion order and have unique keys; we model the store
as an association list in insertion order, appending new bindings at the end. -/

/-- One value of `url_data`: `{"url": url, "created_at": created_at}`. -/
structure LinkRecord where
  url : String
  created_at : String
deriving DecidableEq, Repr

/-- The `url_data` dict: id/record pairs in insertion order. -/
abbrev Store := List (String × LinkRecord)

/-- Python's `id in self.url_data`. -/
def storeHasKey (s : Store) (k : String) : Bool :=
  (List.find? (fun p => p.1 == k) s).isSome

/-- Python's `self.url_data[id]` (as an `Option`, since lookup can fail). -/
def storeGet (s : Store) (k : String) : Option LinkRecord :=
  (List.find? (fun p => p.1 == k) s).map Prod.snd

/-- Python's `self.url_data[id] = record` on an existing key: the binding is
replaced in place, its position in insertion order preserved. -/
def storeSet (s : Store) (k : String) (r : LinkRecord) : Store :=
  List.map (fun p => if p.1 == k then (p.1, r) else p) s

/-- Python's `del self.url_data[id]`. -/
def storeErase (s : Store) (k : String) : Store :=
  List.filter (fun p => !(p.1 == k)) s

/-- `len(self.url_data)`. -/
def storeSize (s : Store) : Nat :=
  List.length s

/-- The duplicate-target scan in `create_short_url` (`app.py` lines 211–214):
`next((id for id, value in self.url_data.items() if value['url'] == url), None)`,
i.e. the first binding in insertion order whose record's url equals `url`. -/
def storeFindByUrl (s : Store) (url : String) : Option (String × LinkRecord) :=
  List.find? (fun p => p.2.url == url) s

/-! ## Identifier generation (`app.py` lines 112–129) -/

/-- `string.ascii_letters + string.digits`: lowercase letters, then uppercase
letters, then digits — 62 symbols. -/
def idAlphabet : String :=
  "abcdefghijklmnopqrstuvwxyzABCDEFGHIJKLMNOPQRSTUVWXYZ0123456789"

/-- The configured id length (`uri_length = 8`). -/
def uri_length : Nat := 8

/-- The configured retry bound (`max_attempts = 100`). -/
def max_attempts : Nat := 100

/-- One candidate draw: `''.join(random.choices(chars, k=uri_length))`.
The random stream `rng` supplies one index per symbol; reducing mod 62
makes every drawn symbol an element of `idAlphabet`, exactly as
`random.choices(chars, ...)` only ever returns elements of `chars`.
Attempt `t` consumes stream positions `t*uri_length ..< (t+1)*uri_length`. -/
def drawCandidate (rng : Nat → Nat) (t : Nat) : String :=
  String.mk ((List.range uri_length).map fun j =>
    idAlphabet.data.getD (rng (t * uri_length + j) % idAlphabet.data.length) 'a')

/-- The retry loop of `generate_unique_id`: `rem` attempts remain and `t`
candidates have been drawn so far. Returns `none` for the
`ValueError("Exceeded maximum number of attempts ...")` raised when every
attempt collides. -/
def generate_unique_id_aux (rng : Nat → Nat) (s : Store) : Nat → Nat → Option String
  | 0, _ => none
  | rem + 1, t =>
      let cand := drawCandidate rng t
      if storeHasKey s cand then generate_unique_id_aux rng s rem (t + 1)
      else some cand

/-- `URLShortenerApp.generate_unique_id` with the default arguments:
up to `max_attempts` draws of `uri_length` symbols; the first candidate that
is not a key of `url_data` is returned; exhaustion raises (here: `none`). -/
def generate_unique_id (rng : Nat → Nat) (s : Store) : Option String :=
  generate_unique_id_aux rng s max_attempts 0

/-! ## Request handlers over the link store -/

/-- `BASE_URL` default: `http://localhost:5000`. -/
def BASE_URL : String := "http://localhost:5000"

/-- The outcomes of `create_short_url`, with the JSON body's interesting
fields. -/
inductive CreateResult where
  | invalidUrl                                   -- {'error': 'Invalid URL'}, 400
  | conflict (short_url generated_uri : String)  -- {'error': 'URL already exists', ...}, 409
  | created (short_url generated_uri : String)   -- {'short_url': ..., 'generated_uri': ...}, 201
  | allocExhausted                               -- {'error': str(e)}, 500
deriving DecidableEq, Repr

/-- The HTTP status code attached to each `create_short_url` outcome. -/
def createStatus : CreateResult → Nat
  | .invalidUrl => 400
  | .conflict _ _ => 409
  | .created _ _ => 201
  | .allocExhausted => 500

/-- The allocation arm of `create_short_url` (`app.py` lines 219–227):
generate an id, insert the record, or surface the `ValueError` as a 500. -/
def createAlloc (rng : Nat → Nat) (s : Store) (url now : String) :
    CreateResult × Store :=
  match generate_unique_id rng s with
  | some uid =>
      (.created (BASE_URL ++ "/" ++ uid) uid, s ++ [(uid, ⟨url, now⟩)])
  | none => (.allocExhausted, s)

/-- `URLShortenerApp.create_short_url` (`app.py` lines 194–227), after JSON
parsing, on the request body's `url` field; `now` stands for
`datetime.now().strftime(...)`. Note the walrus guard
`if existing_id := next(..., None):` treats an empty-string id as falsy and
falls through to allocation, so the conflict arm requires the found id to be
non-empty. -/
def create_short_url (rng : Nat → Nat) (s : Store) (url now : String) :
    CreateResult × Store :=
  if !is_valid_url url then (.invalidUrl, s)
  else
    match storeFindByUrl s url with
    | some (eid, _) =>
        if eid == "" then createAlloc rng s url now
        else (.conflict (BASE_URL ++ "/" ++ eid) eid, s)
    | none => createAlloc rng s url now

/-- The outcomes of `redirect_url`. -/
inductive RedirectResult where
  | redirectTo (url : String)  -- redirect(...), 302
  | notFound                   -- {'error': 'URL not found'}, 404
deriving DecidableEq, Repr

/-- `URLShortenerApp.redirect_url` (`app.py` lines 51–65). -/
def redirect_url (s : Store) (id : String) : RedirectResult :=
  match storeGet s id with
  | some r => .redirectTo r.url
  | none => .notFound

/-- The outcomes of `update_url`. -/
inductive UpdateResult where
  | updated     -- {'message': 'Updated'}, 200
  | notFound    -- {'error': 'Not Found'}, 404
  | invalidUrl  -- {'error': 'Invalid URL'}, 400
deriving DecidableEq, Repr

/-- The HTTP status code attached to each `update_url` outcome. -/
def updateStatus : UpdateResult → Nat
  | .updated => 200
  | .notFound => 404
  | .invalidUrl => 400

/-- `URLShortenerApp.update_url` (`app.py` lines 145–166), after JSON
parsing, on the body's `url` field. The URL is validated before existence of
`id` is checked; a successful update preserves `created_at`. -/
def update_url (s : Store) (id url : String) : UpdateResult × Store :=
  if is_valid_url url then
    match storeGet s id with
    | some old => (.updated, storeSet s id ⟨url, old.created_at⟩)
    | none => (.notFound, s)
  else (.invalidUrl, s)

/-- The outcomes of `delete_url`. -/
inductive DeleteResult where
  | deleted   -- {'message': 'Deleted'}, 200
  | notFound  -- {'error': 'Not Found'}, 404
deriving DecidableEq, Repr

/-- The HTTP status code attached to each `delete_url` outcome. -/
def deleteStatus : DeleteResult → Nat
  | .deleted => 200
  | .notFound => 404

/-- `URLShortenerApp.delete_url` (`app.py` lines 168–182). The handler takes
no authorization credential of any kind. -/
def delete_url (s : Store) (id : String) : DeleteResult × Store :=
  if storeHasKey s id then (.deleted, storeErase s id)
  else (.notFound, s)

/-! ## Route tables

`URLShortenerApp.setup_routes` (`app.py` lines 37–49) and
`AuthService.setup_routes` (`auth.py` lines 66–74). `requiresAuth` records
whether the handler is wrapped by the `@require_auth` decorator; in the
source only `update_password` is. -/

structure Route where
  method : String
  path : String
  handlerName : String
  requiresAuth : Bool
deriving DecidableEq, Repr

/-- The routes registered by `URLShortenerApp.setup_routes`. -/
def app_routes : List Route :=
  [ ⟨"GET", "/<string:id>", "redirect_url", false⟩,
    ⟨"GET", "/", "serve_index", false⟩,
    ⟨"PUT", "/<string:id>", "update_url", false⟩,
    ⟨"DELETE", "/<string:id>", "delete_url", false⟩,
    ⟨"GET", "/keys", "get_all_keys", false⟩,
    ⟨"POST", "/", "create_short_url", false⟩,
    ⟨"DELETE", "/", "unsupported_delete", false⟩ ]

/-- The routes registered by `AuthService.setup_routes`. -/
def auth_routes : List Route :=
  [ ⟨"POST", "/users", "create_user", false⟩,
    ⟨"PUT", "/users", "update_password", true⟩,
    ⟨"POST", "/users/login", "login", false⟩ ]

/-! ## Tokens (`auth.py`, PyJWT modelled symbolically)

An HS256 signature is modelled as the pair (secret, payload): two signatures
are equal iff they were produced from the same secret over the same payload
(ideal-MAC model). `jwt.decode(token, secret, ...)` verifies the signature
and rejects an expiry at or before the current time, returning `none` for
the uniform `jwt.InvalidTokenError` that `validate_jwt` catches. Time is in
seconds; `timedelta(days=1)` is 86400 seconds. -/

/-- The payload built in `login`: `{'sub': ..., 'role': ..., 'exp': ...}`. -/
structure JwtPayload where
  sub : String
  role : String
  exp : Nat
deriving DecidableEq, Repr

/-- A serialized token: its payload together with its signature. -/
structure Jwt where
  payload : JwtPayload
  sig : String × JwtPayload
deriving DecidableEq, Repr

/-- HS256 signing in the ideal-MAC model. -/
def hmacSign (secret : String) (p : JwtPayload) : String × JwtPayload :=
  (secret, p)

/-- `jwt.encode(payload, secret, algorithm='HS256')`. -/
def jwtEncode (p : JwtPayload) (secret : String) : Jwt :=
  ⟨p, hmacSign secret p⟩

/-- `jwt.decode(token, secret, algorithms=['HS256'])` at time `now`:
signature must verify and the expiry must lie strictly in the future
(PyJWT raises `ExpiredSignatureError` when `exp <= now`). -/
def jwtDecode (t : Jwt) (secret : String) (now : Nat) : Option JwtPayload :=
  if t.sig = hmacSign secret t.payload then
    if now < t.payload.exp then some t.payload else none
  else none

/-- `AuthService.validate_jwt` (`auth.py` lines 208–223): decode against the
process secret, mapping any `InvalidTokenError` to `None`. -/
def validate_jwt (secret : String) (now : Nat) (t : Jwt) : Option JwtPayload :=
  jwtDecode t secret now

/-! ## The credential store (`USER_DATA`) -/

/-- One value of `USER_DATA`: `{'password': <hash>, 'role': ...}`. -/
structure UserRecord where
  password : String
  role : String
deriving DecidableEq, Repr

/-- The `USER_DATA` dict, in insertion order. -/
abbrev Users := List (String × UserRecord)

/-- `username in USER_DATA`. -/
def usersHasKey (u : Users) (k : String) : Bool :=
  (List.find? (fun p => p.1 == k) u).isSome

/-- `USER_DATA[username]` (as an `Option`). -/
def usersGet (u : Users) (k : String) : Option UserRecord :=
  (List.find? (fun p => p.1 == k) u).map Prod.snd

/-- `USER_DATA[username]['password'] = h`: in-place mutation of the
password field, role and position preserved. -/
def usersSetPassword (u : Users) (k h : String) : Users :=
  List.map (fun p => if p.1 == k then (p.1, ⟨h, p.2.role⟩) else p) u

/-- `is_password_strong` is imported from `helpers.py`, which is not in the
repository. Modelled from the spec: true iff length ≥ 8 and the string
contains at least one uppercase letter, one lowercase letter, and one
digit. -/
def is_password_strong (s : String) : Bool :=
  8 ≤ s.length && s.data.any (fun c => 'A' ≤ c && c ≤ 'Z') &&
    s.data.any (fun c => 'a' ≤ c && c ≤ 'z') && s.data.any isDigitC

/-! ## Login and token issuance (`auth.py` lines 123–168)

`hash_password` is imported from the missing `helpers.py`; the handlers only
apply it and compare results, so it is passed in as a parameter
`hash : String → String`. -/

/-- `timedelta(days=1)` in seconds. -/
def secondsPerDay : Nat := 86400

/-- The token minted on a successful login (`auth.py` lines 160–166):
payload `{'sub': username, 'role': USER_DATA[username]['role'],
'exp': now + 1 day}` signed with the process secret. -/
def issueToken (username role : String) (now : Nat) (secret : String) : Jwt :=
  jwtEncode ⟨username, role, now + secondsPerDay⟩ secret

/-- The outcomes of `login`, with their meaning in the source. -/
inductive LoginResult where
  | userNotFound        -- {'error': 'User not found'}
  | invalidCredentials  -- {'error': 'Invalid credentials'}
  | token (t : Jwt)     -- {'access_token': token}
deriving DecidableEq, Repr

/-- The HTTP status code attached to each `login` outcome (`auth.py`
lines 151–168): both failure arms return 403. -/
def loginStatus : LoginResult → Nat
  | .userNotFound => 403
  | .invalidCredentials => 403
  | .token _ => 200

/-- `AuthService.login` (`auth.py` lines 123–168), after JSON parsing, with
both `username` and `password` present. -/
def login (hash : String → String) (users : Users)
    (username password : String) (now : Nat) (secret : String) : LoginResult :=
  match usersGet users username with
  | none => .userNotFound
  | some u =>
      if u.password ≠ hash password then .invalidCredentials
      else .token (issueToken username u.role now secret)

/-! ## Password change (`auth.py` lines 170–206) behind `require_auth`
(`auth.py` lines 37–64) -/

/-- The outcomes of `update_password`. -/
inductive PwResult where
  | missingAuth         -- {'error': 'Missing Authorization header'}
  | invalidToken        -- {'error': 'Invalid JWT token'}
  | weakPassword        -- {'error': 'Password must be at least 8 ...'}
  | invalidCredentials  -- {'error': 'Invalid credentials'}
  | ok                  -- '', 200
deriving DecidableEq, Repr

/-- The HTTP status code attached to each `update_password` outcome. -/
def pwStatus : PwResult → Nat
  | .missingAuth => 401
  | .invalidToken => 401
  | .weakPassword => 400
  | .invalidCredentials => 403
  | .ok => 200

/-- The request body of `update_password`, after JSON parsing, with all
three fields present. -/
structure PwBody where
  username : String
  old_password : String
  new_password : String
deriving DecidableEq, Repr

/-- The body of `update_password` (`auth.py` lines 180–206): the decoded
token payload bound by `require_auth` is never consulted — the username to
act on comes from the request body alone. -/
def update_password_body (hash : String → String) (strong : String → Bool)
    (users : Users) (b : PwBody) : PwResult × Users :=
  if !strong b.new_password then (.weakPassword, users)
  else
    match usersGet users b.username with
    | none => (.invalidCredentials, users)
    | some u =>
        if u.password ≠ hash b.old_password then (.invalidCredentials, users)
        else (.ok, usersSetPassword users b.username (hash b.new_password))

/-- `update_password` as routed: the `require_auth` decorator first demands
an Authorization header and a token that `validate_jwt` accepts, then calls
the handler body with the decoded payload (which the body ignores). -/
def update_password (hash : String → String) (strong : String → Bool)
    (secret : String) (now : Nat) (authHeader : Option Jwt)
    (users : Users) (b : PwBody) : PwResult × Users :=
  match authHeader with
  | none => (.missingAuth, users)
  | some tok =>
      match validate_jwt secret now tok with
      | none => (.invalidToken, users)
      | some _decoded => update_password_body hash strong users b

/-! ## The URL grammar as the specification words it

The spec describes `validate_url` as: length at most 1000, no `<` or `>`,
and membership in an absolute-URL grammar — scheme `http` or `https`, then
a dotted hostname / `localhost` / a dotted-quad IP, then an optional
`:port`, then an optional path/query remainder, case-insensitively. The
grammar is rendered as a structured predicate built from explicit
decompositions, so that it can be compared with the code's matcher. -/

/-- The scheme alternative, case-insensitively. -/
def SchemeOk (x : List Char) : Prop :=
  lowerL x = "http://".data ∨ lowerL x = "https://".data

/-- A non-empty sequence of dot-terminated hostname labels. -/
inductive LabelSeq : List Char → Prop
  | last (x : List Char) : matchLabelDot x = true → LabelSeq x
  | cons (x r : List Char) : matchLabelDot x = true → LabelSeq r → LabelSeq (x ++ r)

/-- A dotted-quad IPv4 address: three dot-terminated octets and a final
octet. -/
def IPv4Parts (h : List Char) : Prop :=
  ∃ a b c d, h = a ++ (b ++ (c ++ d)) ∧ matchOctDot a = true ∧
    matchOctDot b = true ∧ matchOctDot c = true ∧ matchOct d = true

/-- A host: a dotted hostname whose top-level label has 2 to 6 letters
(optionally dot-terminated), or the literal `localhost`
(case-insensitively), or a dotted-quad IPv4 address. -/
def HostOk (h : List Char) : Prop :=
  (∃ ls t, h = ls ++ t ∧ LabelSeq ls ∧ matchTldSeg t = true) ∨
    lowerL h = "localhost".data ∨ IPv4Parts h

/-- After the host: an optional `:port`, an optional path/query remainder,
and the tolerance of Python's `$` for one terminal newline. -/
def TailOk (r : List Char) : Prop :=
  ∃ pt rest, r = pt ++ rest ∧ matchPortOpt pt = true ∧
    ∃ pa e, rest = pa ++ e ∧ matchPathBody pa = true ∧ matchEndTok e = true

/-- The absolute-URL grammar: scheme, then host, then tail. -/
def GrammarOk (l : List Char) : Prop :=
  ∃ sch rest, l = sch ++ rest ∧ SchemeOk sch ∧
    ∃ h t, rest = h ++ t ∧ HostOk h ∧ TailOk t

/-- The specification's `validate_url` contract: length at most 1000, no
angle brackets, and the URL grammar. -/
def SpecValidUrl (s : String) : Prop :=
  s.length ≤ 1000 ∧ (∀ c ∈ s.data, c ≠ '<' ∧ c ≠ '>') ∧ GrammarOk s.data

/-- The top-level label exactly as the claim words it: at least two
letters, with no upper bound on its length. -/
def matchTldClaim (x : List Char) : Bool :=
  2 ≤ x.length && x.all isAZ

/-- The claim's top-level label, optionally dot-terminated. -/
def matchTldSegClaim (x : List Char) : Bool :=
  matchTldClaim x || (x.getLastD ' ' == '.' && matchTldClaim x.dropLast)

/-- The claim's host: like `HostOk` but with the unbounded top-level
label. -/
def HostOkClaim (h : List Char) : Prop :=
  (∃ ls t, h = ls ++ t ∧ LabelSeq ls ∧ matchTldSegClaim t = true) ∨
    lowerL h = "localhost".data ∨ IPv4Parts h

/-- The absolute-URL grammar as the claim words it (top-level label of any
length ≥ 2). -/
def GrammarOkClaim (l : List Char) : Prop :=
  ∃ sch rest, l = sch ++ rest ∧ SchemeOk sch ∧
    ∃ h t, rest = h ++ t ∧ HostOkClaim h ∧ TailOk t

/-! ## Lemmas about identifier generation -/

theorem idAlphabet_length : idAlphabet.data.length = 62 := rfl

theorem drawCandidate_length (rng : Nat → Nat) (t : Nat) :
    (drawCandidate rng t).length = uri_length := by
  simp [drawCandidate, String.length_eq_list_length]

theorem drawCandidate_mem (rng : Nat → Nat) (t : Nat) :
    ∀ c ∈ (drawCandidate rng t).data, c ∈ idAlphabet.data := by
  intro c hc
  simp only [drawCandidate, List.mem_map] at hc
  obtain ⟨j, -, rfl⟩ := hc
  have hlt : rng (t * uri_length + j) % idAlphabet.data.length <
      idAlphabet.data.length := by
    exact Nat.mod_lt _ (by rw [idAlphabet_length]; omega)
  rw [List.getD_eq_getElem?_getD, List.getElem?_eq_getElem hlt, Option.getD_some]
  exact List.getElem_mem hlt

theorem generate_aux_some (rng : Nat → Nat) (s : Store) :
    ∀ rem t id, generate_unique_id_aux rng s rem t = some id →
      storeHasKey s id = false ∧ ∃ k, k < rem ∧ id = drawCandidate rng (t + k) := by
  intro rem
  induction rem with
  | zero => intro t id h; simp [generate_unique_id_aux] at h
  | succ rem ih =>
      intro t id h
      unfold generate_unique_id_aux at h
      by_cases hk : storeHasKey s (drawCandidate rng t)
      · rw [if_pos hk] at h
        obtain ⟨h1, k, hk1, hk2⟩ := ih (t + 1) id h
        exact ⟨h1, k + 1, by omega, by rw [hk2]; ring_nf⟩
      · rw [if_neg hk] at h
        cases h
        exact ⟨Bool.of_not_eq_true hk, 0, by omega, by simp⟩

theorem generate_aux_none (rng : Nat → Nat) (s : Store) :
    ∀ rem t, generate_unique_id_aux rng s rem t = none →
      ∀ k, k < rem → storeHasKey s (drawCandidate rng (t + k)) = true := by
  intro rem
  induction rem with
  | zero => intro t h k hk; omega
  | succ rem ih =>
      intro t h k hk
      unfold generate_unique_id_aux at h
      by_cases hcoll : storeHasKey s (drawCandidate rng t)
      · rw [if_pos hcoll] at h
        match k with
        | 0 => simpa using hcoll
        | k + 1 =>
            have := ih (t + 1) h k (by omega)
            rw [show t + (k + 1) = t + 1 + k by ring]
            exact this
      · rw [if_neg hcoll] at h
        cases h

/-- C1: for every state of the link store (and every random stream),
`generate_unique_id` terminates (it is a total function of the bounded
retry loop) and either returns an identifier of exactly 8 characters,
each drawn from the 62-symbol alphabet of ASCII letters and digits, that
is not a key of the store, or returns the allocation-exhaustion error
after 100 candidate draws that all collide with existing keys, which
`create_short_url` surfaces as a 500; it never returns an identifier
already present in the store. -/
theorem generate_unique_id_spec (rng : Nat → Nat) (s : Store) :
    (∀ id, generate_unique_id rng s = some id →
      id.length = 8 ∧ (∀ c ∈ id.data, c ∈ idAlphabet.data) ∧
        idAlphabet.data.length = 62 ∧ storeHasKey s id = false) ∧
    (generate_unique_id rng s = none →
      (∀ t, t < 100 → storeHasKey s (drawCandidate rng t) = true) ∧
      ∀ url now, is_valid_url url = true → storeFindByUrl s url = none →
        create_short_url rng s url now = (.allocExhausted, s) ∧
          createStatus .allocExhausted = 500) := by
  constructor
  · intro id h
    obtain ⟨hfresh, k, -, rfl⟩ := generate_aux_some rng s max_attempts 0 id h
    exact ⟨drawCandidate_length rng _, drawCandidate_mem rng _,
      idAlphabet_length, hfresh⟩
  · intro h
    refine ⟨fun t ht => by simpa using generate_aux_none rng s max_attempts 0 h t ht,
      fun url now hvalid hfind => ?_⟩
    refine ⟨?_, rfl⟩
    simp only [create_short_url, hvalid, Bool.not_true, Bool.false_eq_true,
      if_false, hfind]
    simp [createAlloc, h]

/-- Witness for C1: with the constant-zero stream every draw is
`"aaaaaaaa"`; on the empty store that id is returned fresh, and on a store
already holding the key `"aaaaaaaa"` all 100 draws collide and
`create_short_url` answers with the 500 allocation-exhaustion error. -/
theorem generate_unique_id_spec_witness :
    ("aaaaaaaa".length = 8 ∧ (∀ c ∈ "aaaaaaaa".data, c ∈ idAlphabet.data) ∧
      idAlphabet.data.length = 62 ∧
      storeHasKey ([] : Store) "aaaaaaaa" = false) ∧
    (create_short_url (fun _ => 0) [("aaaaaaaa", ⟨"http://x.yz", "t0"⟩)]
        "http://a.bc" "t1" =
      (.allocExhausted, [("aaaaaaaa", ⟨"http://x.yz", "t0"⟩)]) ∧
      createStatus .allocExhausted = 500) :=
  ⟨(generate_unique_id_spec (fun _ => 0) []).1 "aaaaaaaa" (by decide),
    ((generate_unique_id_spec (fun _ => 0)
        [("aaaaaaaa", ⟨"http://x.yz", "t0"⟩)]).2 (by decide)).2
      "http://a.bc" "t1" (by decide) (by decide)⟩

/-! ## Lemmas about the store -/

theorem storeGet_none_of_not_hasKey (s : Store) (k : String)
    (h : storeHasKey s k = false) : storeGet s k = none := by
  unfold storeHasKey at h
  unfold storeGet
  cases hf : List.find? (fun p => p.1 == k) s with
  | none => rfl
  | some v => rw [hf] at h; simp at h

theorem storeFind_none_of_not_hasKey (s : Store) (k : String)
    (h : storeHasKey s k = false) : List.find? (fun p => p.1 == k) s = none := by
  unfold storeHasKey at h
  cases hf : List.find? (fun p => p.1 == k) s with
  | none => rfl
  | some v => rw [hf] at h; simp at h

theorem storeGet_append_fresh (s : Store) (uid : String) (r : LinkRecord)
    (h : storeHasKey s uid = false) : storeGet (s ++ [(uid, r)]) uid = some r := by
  unfold storeGet
  rw [List.find?_append, storeFind_none_of_not_hasKey s uid h]
  simp

theorem storeHasKey_erase (s : Store) (k : String) :
    storeHasKey (storeErase s k) k = false := by
  unfold storeHasKey storeErase
  have hnone : List.find? (fun p => p.1 == k)
      (List.filter (fun p => !(p.1 == k)) s) = none := by
    rw [List.find?_eq_none]
    intro x hx
    have := (List.mem_filter.1 hx).2
    simpa using this
  rw [hnone]
  rfl

/-- Inversion of a successful creation: `create_short_url` answered
`created su i` iff the URL was valid, the duplicate scan found nothing (or
only a falsy empty-string id, which the walrus guard skips), the generator
produced `i` fresh, and the new record was appended. -/
theorem create_created_inv (rng : Nat → Nat) (s : Store) (url now su i : String)
    (h : (create_short_url rng s url now).1 = .created su i) :
    is_valid_url url = true ∧
    generate_unique_id rng s = some i ∧
    su = BASE_URL ++ "/" ++ i ∧
    (create_short_url rng s url now).2 = s ++ [(i, ⟨url, now⟩)] ∧
    (storeFindByUrl s url = none ∨ ∃ r, storeFindByUrl s url = some ("", r)) := by
  by_cases hv : is_valid_url url
  · cases hf : storeFindByUrl s url with
    | none =>
        cases hg : generate_unique_id rng s with
        | none =>
            exfalso
            simp [create_short_url, hv, hf, createAlloc, hg] at h
        | some uid =>
            have hred : create_short_url rng s url now =
                (.created (BASE_URL ++ "/" ++ uid) uid, s ++ [(uid, ⟨url, now⟩)]) := by
              simp [create_short_url, hv, hf, createAlloc, hg]
            rw [hred] at h
            obtain ⟨h1, h2⟩ := CreateResult.created.inj h
            subst h2; subst h1
            rw [hred]
            exact ⟨hv, rfl, rfl, rfl, Or.inl rfl⟩
    | some pr =>
        obtain ⟨eid, r⟩ := pr
        by_cases he : eid = ""
        · subst he
          cases hg : generate_unique_id rng s with
          | none =>
              exfalso
              simp [create_short_url, hv, hf, createAlloc, hg] at h
          | some uid =>
              have hred : create_short_url rng s url now =
                  (.created (BASE_URL ++ "/" ++ uid) uid, s ++ [(uid, ⟨url, now⟩)]) := by
                simp [create_short_url, hv, hf, createAlloc, hg]
              rw [hred] at h
              obtain ⟨h1, h2⟩ := CreateResult.created.inj h
              subst h2; subst h1
              rw [hred]
              exact ⟨hv, rfl, rfl, rfl, Or.inr ⟨r, rfl⟩⟩
        · exfalso
          have hne : (eid == "") = false := by simpa using he
          simp [create_short_url, hv, hf, hne] at h
  · exfalso
    have hv' : is_valid_url url = false := by simpa using hv
    simp [create_short_url, hv'] at h

/-- A generated id is never the empty string (it has `uri_length = 8`
characters). -/
theorem generate_unique_id_ne_empty (rng : Nat → Nat) (s : Store) (i : String)
    (h : generate_unique_id rng s = some i) : i ≠ "" := by
  obtain ⟨-, k, -, rfl⟩ := generate_aux_some rng s max_attempts 0 i h
  intro hcontra
  have := drawCandidate_length rng (0 + k)
  rw [hcontra] at this
  simp [uri_length] at this

/-- C4: for every string rejected by the URL validator, `create_short_url`
answers with the Invalid-URL error (a 400) and returns the store completely
unchanged: no identifier is allocated and no record is inserted or
modified. -/
theorem create_invalid_url_no_mutation (rng : Nat → Nat) (s : Store)
    (url now : String) (h : is_valid_url url = false) :
    create_short_url rng s url now = (.invalidUrl, s) ∧
      createStatus .invalidUrl = 400 := by
  constructor
  · simp [create_short_url, h]
  · rfl

/-- Witness for C4: `"not a url"` is rejected and creation on a one-record
store leaves it untouched. -/
theorem create_invalid_url_no_mutation_witness :
    create_short_url (fun _ => 0) [("k0090XyZ", ⟨"http://a.bc", "t0"⟩)]
        "not a url" "t1" =
      (.invalidUrl, [("k0090XyZ", ⟨"http://a.bc", "t0"⟩)]) ∧
    createStatus .invalidUrl = 400 :=
  create_invalid_url_no_mutation (fun _ => 0)
    [("k0090XyZ", ⟨"http://a.bc", "t0"⟩)] "not a url" "t1" (by decide)

/-- C5: for every target accepted by the validator, a successful
`create_short_url` returning id `i` leaves a store on which `redirect_url i`
redirects to exactly the submitted URL, unmodified. -/
theorem create_then_redirect (rng : Nat → Nat) (s : Store) (u now su i : String)
    (_hu : is_valid_url u = true)
    (h : (create_short_url rng s u now).1 = .created su i) :
    redirect_url (create_short_url rng s u now).2 i = .redirectTo u := by
  obtain ⟨-, hg, -, hs2, -⟩ := create_created_inv rng s u now su i h
  have hfresh : storeHasKey s i = false :=
    (generate_aux_some rng s max_attempts 0 i hg).1
  rw [hs2]
  unfold redirect_url
  rw [storeGet_append_fresh s i ⟨u, now⟩ hfresh]

/-- Witness for C5: creating `"http://a.bc"` on the empty store yields id
`"aaaaaaaa"` (constant-zero stream) and redirecting that id lands on the
submitted URL. -/
theorem create_then_redirect_witness :
    is_valid_url "http://a.bc" = true ∧
    redirect_url (create_short_url (fun _ => 0) [] "http://a.bc" "t0").2
        "aaaaaaaa" = .redirectTo "http://a.bc" :=
  ⟨by decide,
    create_then_redirect (fun _ => 0) [] "http://a.bc" "t0"
      (BASE_URL ++ "/" ++ "aaaaaaaa") "aaaaaaaa" (by decide) (by decide)⟩

/-- C6 (amended): `update_url` validates the URL before looking the id up.
On an id not in the store it answers NotFound (404) only when the target
passes the validator, and leaves the store unchanged; with a rejected
target it answers InvalidInput (400) — also on an absent id — and leaves
the store, hence any stored target, unmodified. -/
theorem update_url_guards (s : Store) (id url : String) :
    (storeHasKey s id = false → is_valid_url url = true →
      update_url s id url = (.notFound, s) ∧ updateStatus .notFound = 404) ∧
    (is_valid_url url = false →
      update_url s id url = (.invalidUrl, s) ∧
        updateStatus .invalidUrl = 400) := by
  constructor
  · intro hk hv
    refine ⟨?_, rfl⟩
    unfold update_url
    rw [if_pos hv, storeGet_none_of_not_hasKey s id hk]
  · intro hv
    refine ⟨?_, rfl⟩
    unfold update_url
    rw [if_neg (by simp [hv])]

/-- Counterexample for C6 as stated: on an id absent from the store but an
invalid target, `update_url` answers InvalidInput (400), not NotFound —
the validator runs before the existence check. -/
theorem update_url_absent_invalid_target :
    storeHasKey [] "xyz" = false ∧
    update_url [] "xyz" "not a url" = (.invalidUrl, []) ∧
    UpdateResult.invalidUrl ≠ UpdateResult.notFound := by decide

/-- Witness for C6 (amended): an absent id with a valid target gets 404; a
present id with an invalid target gets 400 and the store is untouched. -/
theorem update_url_guards_witness :
    (update_url [] "xyz" "http://a.bc" = (.notFound, []) ∧
      updateStatus .notFound = 404) ∧
    (update_url [("xyz", ⟨"http://a.bc", "t0"⟩)] "xyz" "not a url" =
        (.invalidUrl, [("xyz", ⟨"http://a.bc", "t0"⟩)]) ∧
      updateStatus .invalidUrl = 400) :=
  ⟨(update_url_guards [] "xyz" "http://a.bc").1 (by decide) (by decide),
    (update_url_guards [("xyz", ⟨"http://a.bc", "t0"⟩)] "xyz" "not a url").2
      (by decide)⟩

/-- C10: link deletion requires no authentication — `delete_url` takes no
authorization credential at all, and on any id present in the store it
succeeds (200), removes the record, and a subsequent lookup fails; in the
route tables the authorization gate (`@require_auth`) is applied to the
password-change route only, and to no link-store route. -/
theorem delete_url_no_auth (s : Store) (id : String)
    (h : storeHasKey s id = true) :
    delete_url s id = (.deleted, storeErase s id) ∧
    deleteStatus .deleted = 200 ∧
    storeHasKey (storeErase s id) id = false ∧
    app_routes.all (fun r => !r.requiresAuth) = true ∧
    (app_routes ++ auth_routes).filter (fun r => r.requiresAuth) =
      [⟨"PUT", "/users", "update_password", true⟩] := by
  refine ⟨?_, rfl, storeHasKey_erase s id, by decide, by decide⟩
  unfold delete_url
  rw [if_pos h]

/-- C2: for every valid target `u`, if a first creation succeeded and
returned id `i` (on a store whose keys are non-empty strings, as all
generated keys are), then a second creation of the same target returns the
Conflict (409) outcome carrying that same id `i` and leaves the store — in
particular its size — unchanged: no second record is allocated. -/
theorem create_idempotent_conflict (rng1 rng2 : Nat → Nat) (s : Store)
    (u now1 now2 su i : String)
    (hkeys : ∀ p ∈ s, p.1 ≠ "")
    (h1 : (create_short_url rng1 s u now1).1 = .created su i) :
    create_short_url rng2 (create_short_url rng1 s u now1).2 u now2 =
      (.conflict (BASE_URL ++ "/" ++ i) i, (create_short_url rng1 s u now1).2) ∧
    storeSize (create_short_url rng2 (create_short_url rng1 s u now1).2 u now2).2 =
      storeSize (create_short_url rng1 s u now1).2 ∧
    createStatus (.conflict (BASE_URL ++ "/" ++ i) i) = 409 := by
  obtain ⟨hv, hg, -, hs2, hscan⟩ := create_created_inv rng1 s u now1 su i h1
  have hscan' : storeFindByUrl s u = none := by
    cases hscan with
    | inl h => exact h
    | inr h =>
        obtain ⟨r, hr⟩ := h
        exact absurd rfl (hkeys ("", r) (List.mem_of_find?_eq_some hr))
  have hne : (i == "") = false := by
    simpa using generate_unique_id_ne_empty rng1 s i hg
  have hfind2 : storeFindByUrl (s ++ [(i, ⟨u, now1⟩)]) u = some (i, ⟨u, now1⟩) := by
    unfold storeFindByUrl at hscan' ⊢
    rw [List.find?_append, hscan']
    simp
  have hmain : create_short_url rng2 (s ++ [(i, ⟨u, now1⟩)]) u now2 =
      (.conflict (BASE_URL ++ "/" ++ i) i, s ++ [(i, ⟨u, now1⟩)]) := by
    simp [create_short_url, hv, hfind2, hne]
  rw [hs2]
  exact ⟨hmain, by rw [hmain], rfl⟩

/-- Witness for C2: creating `"http://a.bc"` twice on the empty store —
the first call allocates `"aaaaaaaa"`, the second answers 409 Conflict with
the same id and does not grow the store. -/
theorem create_idempotent_conflict_witness :
    create_short_url (fun _ => 1)
        (create_short_url (fun _ => 0) [] "http://a.bc" "t0").2 "http://a.bc" "t1" =
      (.conflict (BASE_URL ++ "/" ++ "aaaaaaaa") "aaaaaaaa",
        (create_short_url (fun _ => 0) [] "http://a.bc" "t0").2) ∧
    storeSize (create_short_url (fun _ => 1)
        (create_short_url (fun _ => 0) [] "http://a.bc" "t0").2 "http://a.bc" "t1").2 =
      storeSize (create_short_url (fun _ => 0) [] "http://a.bc" "t0").2 ∧
    createStatus (.conflict (BASE_URL ++ "/" ++ "aaaaaaaa") "aaaaaaaa") = 409 :=
  create_idempotent_conflict (fun _ => 0) (fun _ => 1) [] "http://a.bc" "t0" "t1"
    (BASE_URL ++ "/" ++ "aaaaaaaa") "aaaaaaaa" (by simp) (by decide)

/-- Witness for C10: deleting the only record of a one-record store, with no
credential in sight, succeeds and empties the store. -/
theorem delete_url_no_auth_witness :
    delete_url [("k0090XyZ", ⟨"http://a.bc", "t0"⟩)] "k0090XyZ" =
      (.deleted, storeErase [("k0090XyZ", ⟨"http://a.bc", "t0"⟩)] "k0090XyZ") ∧
    deleteStatus .deleted = 200 ∧
    storeHasKey
      (storeErase [("k0090XyZ", ⟨"http://a.bc", "t0"⟩)] "k0090XyZ")
      "k0090XyZ" = false ∧
    app_routes.all (fun r => !r.requiresAuth) = true ∧
    (app_routes ++ auth_routes).filter (fun r => r.requiresAuth) =
      [⟨"PUT", "/users", "update_password", true⟩] :=
  delete_url_no_auth [("k0090XyZ", ⟨"http://a.bc", "t0"⟩)] "k0090XyZ" (by decide)

/-! ## Token and credential theorems -/

/-- C7: a token issued for username `u` (any role, any issue time) verifies
immediately and decodes to subject `u`; a token whose expiry lies in the
past fails verification; and a token signed with any secret different from
the process secret fails verification. -/
theorem token_round_trip (u r secret s' : String) (now : Nat) (t : Jwt)
    (p : JwtPayload) (hs : s' ≠ secret) (ht : t.payload.exp < now) :
    (∃ q, jwtDecode (issueToken u r now secret) secret now = some q ∧
      q.sub = u) ∧
    jwtDecode t secret now = none ∧
    jwtDecode (jwtEncode p s') secret now = none := by
  refine ⟨⟨⟨u, r, now + secondsPerDay⟩, ?_, rfl⟩, ?_, ?_⟩
  · unfold issueToken jwtEncode jwtDecode
    rw [if_pos rfl, if_pos (by simp [secondsPerDay])]
  · unfold jwtDecode
    by_cases hsig : t.sig = hmacSign secret t.payload
    · rw [if_pos hsig, if_neg (by omega)]
    · rw [if_neg hsig]
  · unfold jwtEncode jwtDecode
    rw [if_neg]
    intro hcontra
    exact hs (congrArg Prod.fst hcontra)

/-- Witness for C7: a token for `"alice1"` issued at time 1 with secret
`"k1"` round-trips; a token that expired at time 0 fails at time 1; a token
signed with `"k2"` fails against `"k1"`. -/
theorem token_round_trip_witness :
    "k2" ≠ "k1" ∧ (jwtEncode ⟨"bob99", "regular", 0⟩ "k1").payload.exp < 1 ∧
    ((∃ q, jwtDecode (issueToken "alice1" "regular" 1 "k1") "k1" 1 = some q ∧
        q.sub = "alice1") ∧
      jwtDecode (jwtEncode ⟨"bob99", "regular", 0⟩ "k1") "k1" 1 = none ∧
      jwtDecode (jwtEncode ⟨"carol", "regular", 9⟩ "k2") "k1" 1 = none) :=
  ⟨by decide, by decide,
    token_round_trip "alice1" "regular" "k1" "k2" 1
      (jwtEncode ⟨"bob99", "regular", 0⟩ "k1") ⟨"carol", "regular", 9⟩
      (by decide) (by decide)⟩

/-- Counterexample for C8 as stated: on an unknown username `login` answers
403 (`{'error': 'User not found'}`, `auth.py` line 152), not a 404-class
response; the status is the same 403 the InvalidCredentials arm uses. -/
theorem login_unknown_user_not_404 :
    login (fun p => p) [] "alice1" "Str0ngPwd" 0 "k1" = .userNotFound ∧
    loginStatus .userNotFound = 403 ∧
    loginStatus .userNotFound ≠ 404 ∧
    loginStatus .invalidCredentials = 403 := by decide

/-- C8 (amended): for every username absent from the credential store and
every password, `login` returns the user-not-found outcome, surfaced to the
caller as a 403 response — the same status class as the InvalidCredentials
outcome for a wrong password on an existing user, the two being
distinguished only by their error message. -/
theorem login_unknown_user_403 (hash : String → String) (users : Users)
    (u p : String) (now : Nat) (secret : String)
    (h : usersHasKey users u = false) :
    login hash users u p now secret = .userNotFound ∧
    loginStatus .userNotFound = 403 ∧
    loginStatus .invalidCredentials = 403 := by
  refine ⟨?_, rfl, rfl⟩
  unfold login usersGet
  unfold usersHasKey at h
  cases hf : List.find? (fun q => q.1 == u) users with
  | none => rfl
  | some v => rw [hf] at h; simp at h

/-- Witness for C8 (amended): `"alice1"` is absent from a one-user store;
login for her answers the 403 user-not-found outcome. -/
theorem login_unknown_user_403_witness :
    login (fun p => p ++ "#") [("bob99", ⟨"pw#", "regular"⟩)]
        "alice1" "Str0ngPwd" 0 "k1" = .userNotFound ∧
    loginStatus .userNotFound = 403 ∧
    loginStatus .invalidCredentials = 403 :=
  login_unknown_user_403 (fun p => p ++ "#") [("bob99", ⟨"pw#", "regular"⟩)]
    "alice1" "Str0ngPwd" 0 "k1" (by decide)

/-- C9: `update_password` never compares the authenticated token's subject
to the username in the request body — for every two tokens that
`validate_jwt` accepts, even with different subjects, a password-change
request for user `u` carrying `u`'s correct old password produces the
identical outcome and the identical store mutation under either token: any
holder of any valid token can change any user's password given that user's
old password. -/
theorem update_password_ignores_token_subject
    (hash : String → String) (strong : String → Bool) (secret : String)
    (now : Nat) (t1 t2 : Jwt) (users : Users) (b : PwBody) (u : UserRecord)
    (h1 : (validate_jwt secret now t1).isSome = true)
    (h2 : (validate_jwt secret now t2).isSome = true)
    (_hsub : t1.payload.sub ≠ t2.payload.sub)
    (_hu : usersGet users b.username = some u)
    (_hold : u.password = hash b.old_password) :
    update_password hash strong secret now (some t1) users b =
      update_password hash strong secret now (some t2) users b := by
  unfold update_password
  cases hv1 : validate_jwt secret now t1 with
  | none => rw [hv1] at h1; simp at h1
  | some d1 =>
      cases hv2 : validate_jwt secret now t2 with
      | none => rw [hv2] at h2; simp at h2
      | some d2 => simp [hv1, hv2]

/-- Witness for C9: tokens for `"bob99"` and `"carol"` (different subjects),
both valid at time 1 under secret `"k1"`, produce the identical successful
password change of `"alice1"`'s record. -/
theorem update_password_ignores_token_subject_witness :
    update_password (fun p => p ++ "#") is_password_strong "k1" 1
        (some (jwtEncode ⟨"bob99", "regular", 9⟩ "k1"))
        [("alice1", ⟨"old#", "regular"⟩)] ⟨"alice1", "old", "Newpass1"⟩ =
      update_password (fun p => p ++ "#") is_password_strong "k1" 1
        (some (jwtEncode ⟨"carol", "regular", 9⟩ "k1"))
        [("alice1", ⟨"old#", "regular"⟩)] ⟨"alice1", "old", "Newpass1"⟩ :=
  update_password_ignores_token_subject (fun p => p ++ "#") is_password_strong
    "k1" 1 (jwtEncode ⟨"bob99", "regular", 9⟩ "k1")
    (jwtEncode ⟨"carol", "regular", 9⟩ "k1")
    [("alice1", ⟨"old#", "regular"⟩)] ⟨"alice1", "old", "Newpass1"⟩
    ⟨"old#", "regular"⟩ (by decide) (by decide) (by decide) (by decide)
    (by decide)

/-! ## The URL validator against the grammar -/

example : is_valid_url "https://www.google.com" = true := by decide
example : is_valid_url "http://localhost:5000/" = true := by decide
example : is_valid_url "http://127.0.0.1:8000" = true := by decide
example : is_valid_url "google.com" = false := by decide
example : is_valid_url "http://examplecom/" = false := by decide

theorem splitsAny_iff (p q : List Char → Bool) (l : List Char) :
    splitsAny p q l = true ↔ ∃ a b, l = a ++ b ∧ p a = true ∧ q b = true := by
  unfold splitsAny
  rw [List.any_eq_true]
  constructor
  · rintro ⟨i, hi, hpq⟩
    rw [Bool.and_eq_true] at hpq
    exact ⟨l.take i, l.drop i, (List.take_append_drop i l).symm, hpq.1, hpq.2⟩
  · rintro ⟨a, b, rfl, hp, hq⟩
    refine ⟨a.length, ?_, ?_⟩
    · rw [List.mem_range, List.length_append]
      omega
    · rw [Bool.and_eq_true, List.take_left, List.drop_left]
      exact ⟨hp, hq⟩

theorem labelsPlusF_sound : ∀ n l, matchLabelsPlusF n l = true → LabelSeq l := by
  intro n
  induction n with
  | zero => intro l h; simp [matchLabelsPlusF] at h
  | succ n ih =>
      intro l h
      unfold matchLabelsPlusF at h
      rw [List.any_eq_true] at h
      obtain ⟨i, -, hcond⟩ := h
      rw [Bool.and_eq_true, Bool.or_eq_true] at hcond
      obtain ⟨hdot, hrest⟩ := hcond
      cases hrest with
      | inl hempty =>
          have hdrop : l.drop i = [] := by simpa using hempty
          have hl : l.take i = l := by
            have h2 := List.take_append_drop i l
            rw [hdrop, List.append_nil] at h2
            exact h2
          exact hl ▸ LabelSeq.last _ hdot
      | inr hrec =>
          have h1 := ih (l.drop i) hrec
          have h2 : l = l.take i ++ l.drop i := (List.take_append_drop i l).symm
          rw [h2]
          exact LabelSeq.cons _ _ hdot h1

theorem matchLabelDot_ne_nil (x : List Char) (h : matchLabelDot x = true) :
    x ≠ [] := by
  intro he
  rw [he] at h
  simp [matchLabelDot] at h

theorem labelsPlusF_complete :
    ∀ l, LabelSeq l → ∀ n, l.length < n → matchLabelsPlusF n l = true := by
  intro l hl
  induction hl with
  | last x hx =>
      intro n hn
      match n with
      | n + 1 =>
          unfold matchLabelsPlusF
          rw [List.any_eq_true]
          refine ⟨x.length, by rw [List.mem_range]; omega, ?_⟩
          rw [Bool.and_eq_true, List.take_length]

          exact ⟨hx, by rw [Bool.or_eq_true]; left; simp [List.drop_length]⟩
  | cons x r hx hr ih =>
      intro n hn
      match n with
      | n + 1 =>
          unfold matchLabelsPlusF
          rw [List.any_eq_true]
          refine ⟨x.length, ?_, ?_⟩
          · rw [List.mem_range, List.length_append]
            omega
          · rw [Bool.and_eq_true, List.take_left]
            refine ⟨hx, ?_⟩
            rw [Bool.or_eq_true]
            right
            rw [List.drop_left]
            apply ih
            have hxne : 1 ≤ x.length :=
              List.length_pos.2 (matchLabelDot_ne_nil x hx)
            rw [List.length_append] at hn
            omega

theorem matchLabelsPlus_iff (l : List Char) :
    matchLabelsPlus l = true ↔ LabelSeq l := by
  constructor
  · exact labelsPlusF_sound _ l
  · intro h
    exact labelsPlusF_complete l h (l.length + 1) (by omega)

theorem matchIPv4_iff (l : List Char) : matchIPv4 l = true ↔ IPv4Parts l := by
  unfold matchIPv4 IPv4Parts
  rw [splitsAny_iff]
  constructor
  · rintro ⟨a, r1, rfl, ha, hr1⟩
    rw [splitsAny_iff] at hr1
    obtain ⟨b, r2, rfl, hb, hr2⟩ := hr1
    rw [splitsAny_iff] at hr2
    obtain ⟨c, d, rfl, hc, hd⟩ := hr2
    exact ⟨a, b, c, d, rfl, ha, hb, hc, hd⟩
  · rintro ⟨a, b, c, d, rfl, ha, hb, hc, hd⟩
    exact ⟨a, _, rfl, ha, (splitsAny_iff _ _ _).2
      ⟨b, _, rfl, hb, (splitsAny_iff _ _ _).2 ⟨c, d, rfl, hc, hd⟩⟩⟩

theorem matchHost_iff (l : List Char) : matchHost l = true ↔ HostOk l := by
  unfold matchHost HostOk matchDomain
  rw [Bool.or_eq_true, Bool.or_eq_true, splitsAny_iff, matchIPv4_iff]
  constructor
  · rintro ((⟨a, b, rfl, ha, hb⟩ | h) | h)
    · exact Or.inl ⟨a, b, rfl, (matchLabelsPlus_iff a).1 ha, hb⟩
    · exact Or.inr (Or.inl (by simpa using h))
    · exact Or.inr (Or.inr h)
  · rintro (⟨a, b, rfl, ha, hb⟩ | h | h)
    · exact Or.inl (Or.inl ⟨a, b, rfl, (matchLabelsPlus_iff a).2 ha, hb⟩)
    · exact Or.inl (Or.inr (by simpa using h))
    · exact Or.inr h

theorem matchTail_iff (l : List Char) : matchTail l = true ↔ TailOk l := by
  unfold matchTail TailOk
  rw [splitsAny_iff]
  constructor
  · rintro ⟨pt, rest, rfl, hpt, hrest⟩
    rw [splitsAny_iff] at hrest
    exact ⟨pt, rest, rfl, hpt, hrest⟩
  · rintro ⟨pt, rest, rfl, hpt, hrest⟩
    exact ⟨pt, rest, rfl, hpt, (splitsAny_iff _ _ _).2 hrest⟩

theorem matchSchemeTok_iff (x : List Char) :
    matchSchemeTok x = true ↔ SchemeOk x := by
  unfold matchSchemeTok SchemeOk
  rw [Bool.or_eq_true]
  constructor
  · rintro (h | h)
    · exact Or.inl (by simpa using h)
    · exact Or.inr (by simpa using h)
  · rintro (h | h)
    · exact Or.inl (by simpa using h)
    · exact Or.inr (by simpa using h)

theorem urlRegexMatch_iff (l : List Char) :
    urlRegexMatch l = true ↔ GrammarOk l := by
  unfold urlRegexMatch GrammarOk
  rw [splitsAny_iff]
  constructor
  · rintro ⟨sch, rest, rfl, hsch, hrest⟩
    rw [splitsAny_iff] at hrest
    obtain ⟨h, t, rfl, hh, ht⟩ := hrest
    exact ⟨sch, _, rfl, (matchSchemeTok_iff sch).1 hsch,
      h, t, rfl, (matchHost_iff h).1 hh, (matchTail_iff t).1 ht⟩
  · rintro ⟨sch, rest, rfl, hsch, h, t, rfl, hh, ht⟩
    exact ⟨sch, _, rfl, (matchSchemeTok_iff sch).2 hsch,
      (splitsAny_iff _ _ _).2
        ⟨h, t, rfl, (matchHost_iff h).2 hh, (matchTail_iff t).2 ht⟩⟩

/-- Counterexample for C3 as stated: the hostname `a.abcdefg` has a 7-letter
top-level label, so it belongs to the claim's grammar (`GrammarOkClaim`,
top-level label of any length ≥ 2), yet `is_valid_url` rejects it — the
code's regex bounds the top-level label by `[A-Z]{2,6}`. The 6-letter
variant is accepted; and, against the claim's only-if direction, the code
also accepts a URL with one trailing newline (Python's `$`). -/
theorem is_valid_url_tld_bounded :
    GrammarOkClaim "http://a.abcdefg".data ∧
    is_valid_url "http://a.abcdefg" = false ∧
    is_valid_url "http://a.abcdef" = true ∧
    is_valid_url "http://ab.cd\n" = true := by
  refine ⟨?_, by decide, by decide, by decide⟩
  refine ⟨"http://".data, "a.abcdefg".data, by decide,
    Or.inl (by decide), "a.abcdefg".data, [], by simp, ?_, ?_⟩
  · exact Or.inl ⟨"a.".data, "abcdefg".data, by decide,
      LabelSeq.last _ (by decide), by decide⟩
  · exact ⟨[], [], by simp, by decide, [], [], by simp, by decide, by decide⟩

/-- C3 (amended): on ASCII strings (where the embedding of Python's
case-insensitive regex matching is exact), `is_valid_url s` returns true
if and only if `s` is at most 1000 characters long, contains no `<` or `>`,
and matches the absolute-URL grammar with scheme `http` or `https`, a host
that is a dotted hostname whose top-level label consists of 2 to **6**
letters (not of arbitrary length ≥ 2), the literal `localhost`, or a
dotted-quad IPv4 address, an optional `:port`, an optional path/query
remainder, and at most one trailing newline (tolerated by Python's `$`);
scheme and host are matched case-insensitively. -/
theorem is_valid_url_iff_grammar (s : String)
    (_hascii : ∀ c ∈ s.data, c.toNat ≤ 127) :
    is_valid_url s = true ↔ SpecValidUrl s := by
  unfold is_valid_url SpecValidUrl
  by_cases hlen : s.length > 1000
  · rw [if_pos hlen]
    constructor
    · intro h; cases h
    · rintro ⟨h1, -, -⟩; omega
  · rw [if_neg hlen]
    constructor
    · intro h
      by_cases hangle : s.data.any (fun c => c == '<' || c == '>')
      · rw [if_pos hangle] at h; cases h
      · rw [if_neg hangle] at h
        refine ⟨by omega, ?_, (urlRegexMatch_iff _).1 h⟩
        intro c hc
        have hne : ¬((c == '<' || c == '>') = true) := by
          intro hcontra
          exact hangle (List.any_eq_true.2 ⟨c, hc, hcontra⟩)
        constructor <;> intro he <;> subst he <;> simp at hne
    · rintro ⟨-, h2, h3⟩
      have hangle : s.data.any (fun c => c == '<' || c == '>') = false := by
        rw [List.any_eq_false]
        intro c hc
        obtain ⟨hc1, hc2⟩ := h2 c hc
        simp [hc1, hc2]
      rw [if_neg (by simp [hangle])]
      exact (urlRegexMatch_iff _).2 h3

/-- Witness for C3 (amended): `"http://a.bc"` is ASCII and accepted by the
code, hence belongs to the specification grammar. -/
theorem is_valid_url_iff_grammar_witness : SpecValidUrl "http://a.bc" :=
  (is_valid_url_iff_grammar "http://a.bc" (by decide)).1 (by decide)

end UrlShortener
